import Mathlib

/-!
Verification of the model-envelope engine of `DynamicDLModel.py`.

Shallow embedding notes.

* Weight tensors (numpy arrays) are modelled as lists of rationals; a weight
  sequence is a list of tensors.  Elementwise numpy arithmetic is exact
  rational arithmetic.  The embedding is used on equal-shape operands, which is
  the domain the spec's data-model invariant prescribes for all binary weight
  operations.
* The runtime instance (`self.model`, a keras model) is modelled by the weight
  store it carries, which is the only part of it the weight accessors touch.
* A Python function object is modelled by `FnObj`: its call behavior, the
  source text `inspect.getsource` can recover (`insp`, `none` when `getsource`
  raises `OSError`, as it does for every function created by `exec`), and the
  `source` attribute that the engine attaches as provenance (`srcAttr`).
* `exec` of a source string is modelled by an environment `ExecEnv` mapping the
  string to the list of bindings it defines (each callable or not), or to
  `none` when execution raises.  A fresh empty namespace per resolution is
  implicit: the outcome depends on the string alone.
* Exceptions are modelled by `Except PyErr`; `PyErr.typeError` is Python's
  `TypeError` (calling a non-callable, bad keyword arguments), and
  `PyErr.incompatibleModel` is `IncompatibleModelError`.
* Python's in-place attachment `fn.source = src` is modelled functionally: the
  constructor stores the updated function object, and because the Python
  assignment `self.x_function = x_function` aliases the caller's object, the
  stored object and the caller's object are one and the same.
* `dill.dump`/`dill.load` transport the encoded mapping verbatim through a byte
  stream; the byte layer is a faithful injection and the embedding works with
  the mapping itself (an association list in the dict's literal key order).
-/

abbrev Tensor := List ℚ

abbrev Weights := List Tensor

/-- The runtime instance, modelled by the weight store it carries. -/
abbrev RModel := Weights

abbrev DataT := List ℚ

/-- Behavior of an `apply_model_function`: runtime instance and input to output. -/
abbrev ApplyT := RModel → DataT → DataT

/-- Behavior of a `weights_to_model_function`: stores weights into the runtime instance. -/
abbrev W2MT := RModel → Weights → RModel

/-- Behavior of a `model_to_weights_function`: reads weights off the runtime instance. -/
abbrev M2WT := RModel → Weights

/-- Behavior of a `weight_copy_function` at the value level. -/
abbrev WCopyT := Weights → Weights

/-- Behavior of an `incremental_learn_function`:
model, inputs, outputs, batch size, min samples to updated model. -/
abbrev ILT := RModel → List DataT → List DataT → Nat → Nat → RModel

inductive PyErr where
  | typeError
  | incompatibleModel
  | execError
  | indexError
deriving DecidableEq

/-- A Python function object: behavior, `inspect.getsource` outcome, and the
`source` attribute used as provenance. -/
structure FnObj (α : Type) where
  beh : α
  insp : Option String
  srcAttr : Option String

/-- A slot value: `None` or a function object. -/
inductive PySlotVal (α : Type) where
  | none
  | fn (f : FnObj α)

/-- What `fn_to_source` produces: `None`, a source string, or the function
object itself (the opaque, non-portable fallback). -/
inductive DumpedSlot (α : Type) where
  | none
  | src (s : String)
  | obj (f : FnObj α)

/-- `fn_to_source`: try `inspect.getsource`; on `OSError` fall back to the
`source` attribute; otherwise return the object itself. `None` maps to `None`. -/
def fn_to_source : PySlotVal α → DumpedSlot α
  | .none => .none
  | .fn f =>
    match f.insp with
    | some s => .src s
    | none =>
      match f.srcAttr with
      | some s => .src s
      | none => .obj f

/-- One binding produced by executing a source string: a callable with the
given behavior, or a non-callable value. -/
inductive ExecBinding (α : Type) where
  | callable (b : α)
  | notCallable

/-- The outcome of `exec` on source strings at a slot type: `none` means
execution raised; otherwise the bindings defined, in definition order. -/
abbrev ExecEnv (α : Type) := String → Option (List (ExecBinding α))

/-- The `for k,v in locs.items()` scan of `source_to_fn`: first callable. -/
def firstCallable : List (ExecBinding α) → Option α
  | [] => none
  | .callable b :: _ => some b
  | .notCallable :: rest => firstCallable rest

/-- `source_to_fn`: a non-string input is returned unchanged; a string is
executed; the first callable defined gets the source attached and is returned;
if no callable was defined the result is `None` (no exception). -/
def source_to_fn (E : ExecEnv α) : DumpedSlot α → Except PyErr (PySlotVal α)
  | .none => .ok .none
  | .obj f => .ok (.fn f)
  | .src s =>
    match E s with
    | none => .error .execError
    | some binds =>
      match firstCallable binds with
      | some b => .ok (.fn ⟨b, none, some s⟩)
      | none => .ok .none

/-- The per-slot block of `__init__`:
`src = fn_to_source(f); if type(src) == str: f.source = src`. -/
def attachSource : PySlotVal α → PySlotVal α
  | .none => .none
  | .fn g =>
    match fn_to_source (.fn g) with
    | .src s => .fn { g with srcAttr := some s }
    | _ => .fn g

/-- Calling a slot value: calling `None` is a `TypeError`. -/
def pycall : PySlotVal α → Except PyErr α
  | .none => .error .typeError
  | .fn g => .ok g.beh

/-- Behavior carried by a slot value, if any. -/
def behOfSlot : PySlotVal α → Option α
  | .none => none
  | .fn f => some f.beh

structure DynamicDLModel where
  model : RModel
  model_id : String
  timestamp_id : Option String
  init_model_function : PySlotVal RModel
  apply_model_function : PySlotVal ApplyT
  weights_to_model_function : PySlotVal W2MT
  model_to_weights_function : PySlotVal M2WT
  calc_delta_function : PySlotVal Unit
  apply_delta_function : PySlotVal Unit
  weight_copy_function : PySlotVal WCopyT
  incremental_learn_function : PySlotVal ILT

/-- `set_weights`: `self.weights_to_model_function(self, weights)`. -/
def DynamicDLModel.set_weights (e : DynamicDLModel) (w : Weights) :
    Except PyErr DynamicDLModel := do
  let f ← pycall e.weights_to_model_function
  pure { e with model := f e.model w }

/-- `get_weights`: `self.model_to_weights_function(self)`. -/
def DynamicDLModel.get_weights (e : DynamicDLModel) : Except PyErr Weights := do
  let g ← pycall e.model_to_weights_function
  pure (g e.model)

/-- `apply`: `self.apply_model_function(self, data)`. -/
def DynamicDLModel.apply (e : DynamicDLModel) (x : DataT) : Except PyErr DataT := do
  let f ← pycall e.apply_model_function
  pure (f e.model x)

/-- `incremental_learn`: invokes the optional slot with no presence guard, so
an absent (`None`) slot makes the call itself fail with Python's `TypeError`. -/
def DynamicDLModel.incremental_learn (e : DynamicDLModel)
    (trainingData trainingOutputs : List DataT) (bs minTrainImages : Nat) :
    Except PyErr DynamicDLModel := do
  let f ← pycall e.incremental_learn_function
  pure { e with model := f e.model trainingData trainingOutputs bs minTrainImages }

/-- `__init__`: attaches recovered source text to every supplied slot function
object, stores the slots, runs `init_model()`, records the timestamp, and loads
the initial weights when they are truthy (a nonempty list). -/
def DynamicDLModel.make (model_id : String)
    (init_model_function : PySlotVal RModel)
    (apply_model_function : PySlotVal ApplyT)
    (weights_to_model_function : PySlotVal W2MT)
    (model_to_weights_function : PySlotVal M2WT)
    (calc_delta_function : PySlotVal Unit)
    (apply_delta_function : PySlotVal Unit)
    (weight_copy_function : PySlotVal WCopyT)
    (incremental_learn_function : PySlotVal ILT)
    (weights : Option Weights)
    (timestamp_id : Option String) : Except PyErr DynamicDLModel := do
  let initF := attachSource init_model_function
  let w2mF := attachSource weights_to_model_function
  let m2wF := attachSource model_to_weights_function
  let applyF := attachSource apply_model_function
  let calcF := attachSource calc_delta_function
  let applyDF := attachSource apply_delta_function
  let incrF := attachSource incremental_learn_function
  let wcopyF := attachSource weight_copy_function
  let m0 ← pycall initF
  let e0 : DynamicDLModel :=
    { model := m0, model_id := model_id, timestamp_id := timestamp_id,
      init_model_function := initF, apply_model_function := applyF,
      weights_to_model_function := w2mF, model_to_weights_function := m2wF,
      calc_delta_function := calcF, apply_delta_function := applyDF,
      weight_copy_function := wcopyF, incremental_learn_function := incrF }
  match weights with
  | some w => if w = [] then pure e0 else e0.set_weights w
  | none => pure e0

/-- `get_empty_copy`: a new envelope with the same identity, slots and
timestamp, freshly constructed, without weights. -/
def DynamicDLModel.get_empty_copy (e : DynamicDLModel) : Except PyErr DynamicDLModel :=
  DynamicDLModel.make e.model_id e.init_model_function e.apply_model_function
    e.weights_to_model_function e.model_to_weights_function e.calc_delta_function
    e.apply_delta_function e.weight_copy_function e.incremental_learn_function
    none e.timestamp_id

/-- `copy`: empty copy loaded with `weight_copy_function(get_weights())`. -/
def DynamicDLModel.copy (e : DynamicDLModel) : Except PyErr DynamicDLModel := do
  let out ← e.get_empty_copy
  let w ← e.get_weights
  let wc ← pycall e.weight_copy_function
  out.set_weights (wc w)

/-! ### Default slot behaviors and the delta engine -/

/-- `default_keras_weights_to_model_function`: stores the weights in the
runtime instance (`modelObj.model.set_weights(weights)`). -/
def default_keras_weights_to_model_function : W2MT := fun _modelObj weights => weights

/-- `default_keras_model_to_weights_function`: reads the weights off the
runtime instance (`modelObj.model.get_weights()`). -/
def default_keras_model_to_weights_function : M2WT := fun modelObj => modelObj

/-- `default_keras_weight_copy_function` at the value level: one `layer.copy()`
per tensor.  Freshness of the copied buffers is modelled at the store level by
`weightCopyStore` below. -/
def default_keras_weight_copy_function (weights_in : Weights) : Weights :=
  weights_in.map (fun layer => layer)

/-- Elementwise `lhs_weights[depth] - rhs_weights[depth]`. -/
def tensorSub (a b : Tensor) : Tensor := List.zipWith (fun x y => x - y) a b

/-- Elementwise `lhs_weights[depth] + rhs_weights[depth]`. -/
def tensorAdd (a b : Tensor) : Tensor := List.zipWith (fun x y => x + y) a b

/-- `delta[np.abs(delta) < threshold] = 0`. -/
def threshZero (t : ℚ) (d : Tensor) : Tensor :=
  d.map (fun x => if |x| < t then 0 else x)

/-- `if threshold is not None: delta[np.abs(delta) < threshold] = 0`. -/
def applyThresh (t : Option ℚ) (d : Tensor) : Tensor :=
  match t with
  | some t0 => threshZero t0 d
  | none => d

/-- The `for depth in range(len(lhs_weights))` loop of the delta function:
`rhs_weights[depth]` raises `IndexError` when the right sequence is shorter;
extra right entries are ignored. -/
def deltaLoop (t : Option ℚ) : Weights → Weights → Except PyErr Weights
  | [], _ => .ok []
  | _ :: _, [] => .error .indexError
  | a :: la, b :: lb => do
    let rest ← deltaLoop t la lb
    pure (applyThresh t (tensorSub a b) :: rest)

/-- The summation loop of the apply-delta function. -/
def sumLoop : Weights → Weights → Except PyErr Weights
  | [], _ => .ok []
  | _ :: _, [] => .error .indexError
  | a :: la, b :: lb => do
    let rest ← sumLoop la lb
    pure (tensorAdd a b :: rest)

/-- `default_keras_delta_function`: identity guard, positionwise difference
with optional sparsification, result loaded into an empty copy of `lhs`. -/
def default_keras_delta_function (lhs rhs : DynamicDLModel) (threshold : Option ℚ) :
    Except PyErr DynamicDLModel := do
  if lhs.model_id ≠ rhs.model_id then throw PyErr.incompatibleModel
  let lhs_weights ← lhs.get_weights
  let rhs_weights ← rhs.get_weights
  let newWeights ← deltaLoop threshold lhs_weights rhs_weights
  let outputObj ← lhs.get_empty_copy
  outputObj.set_weights newWeights

/-- `default_keras_apply_delta_function`: identity guard, positionwise sum,
result loaded into an empty copy of `lhs`. -/
def default_keras_apply_delta_function (lhs rhs : DynamicDLModel) :
    Except PyErr DynamicDLModel := do
  if lhs.model_id ≠ rhs.model_id then throw PyErr.incompatibleModel
  let lhs_weights ← lhs.get_weights
  let rhs_weights ← rhs.get_weights
  let newWeights ← sumLoop lhs_weights rhs_weights
  let outputObj ← lhs.get_empty_copy
  outputObj.set_weights newWeights

/-! ### Serialization: `dump` / `Load`

The dumped artifact is the dict literal of `dump`, as an association list in
the literal's key order.  `dumps`/`Loads` move the very same mapping through a
byte stream via `dill`, a faithful injection, so they are modelled as `dump`
and `Load` themselves. -/

inductive DumpValue where
  | mid (s : String)
  | tsid (t : Option String)
  | ws (w : Weights)
  | slotInit (u : DumpedSlot RModel)
  | slotApply (u : DumpedSlot ApplyT)
  | slotW2M (u : DumpedSlot W2MT)
  | slotM2W (u : DumpedSlot M2WT)
  | slotCalc (u : DumpedSlot Unit)
  | slotApplyD (u : DumpedSlot Unit)
  | slotWCopy (u : DumpedSlot WCopyT)
  | slotIncr (u : DumpedSlot ILT)

abbrev DumpDict := List (String × DumpValue)

/-- `dump`: the fixed-key mapping written by `dill.dump`.  Note that
`weight_copy_function` is not among the keys. -/
def DynamicDLModel.dump (e : DynamicDLModel) : Except PyErr DumpDict := do
  let w ← e.get_weights
  pure [
    ("model_id", DumpValue.mid e.model_id),
    ("init_model_function", DumpValue.slotInit (fn_to_source e.init_model_function)),
    ("apply_model_function", DumpValue.slotApply (fn_to_source e.apply_model_function)),
    ("weights_to_model_function", DumpValue.slotW2M (fn_to_source e.weights_to_model_function)),
    ("model_to_weights_function", DumpValue.slotM2W (fn_to_source e.model_to_weights_function)),
    ("calc_delta_function", DumpValue.slotCalc (fn_to_source e.calc_delta_function)),
    ("apply_delta_function", DumpValue.slotApplyD (fn_to_source e.apply_delta_function)),
    ("incremental_learn_function", DumpValue.slotIncr (fn_to_source e.incremental_learn_function)),
    ("weights", DumpValue.ws w),
    ("timestamp_id", DumpValue.tsid e.timestamp_id)
  ]

/-- `dumps`: same mapping, through `BytesIO`. -/
def DynamicDLModel.dumps (e : DynamicDLModel) : Except PyErr DumpDict := e.dump

/-- Substring test on character lists, for Python's `'_function' in k`. -/
def containsSub (needle : List Char) : List Char → Bool
  | [] => needle.isEmpty
  | c :: rest => needle.isPrefixOf (c :: rest) || containsSub needle rest

def strContainsSub (hay needle : String) : Bool := containsSub needle.toList hay.toList

/-- Re-embedding a resolved slot value into the dict's value universe. -/
def pyslotToDumped : PySlotVal α → DumpedSlot α
  | .none => .none
  | .fn f => .obj f

/-- The per-slot exec environments (one per slot signature). -/
structure ExecEnvs where
  initE : ExecEnv RModel
  applyE : ExecEnv ApplyT
  w2mE : ExecEnv W2MT
  m2wE : ExecEnv M2WT
  calcE : ExecEnv Unit
  applyDE : ExecEnv Unit
  wcopyE : ExecEnv WCopyT
  incrE : ExecEnv ILT

/-- `inputDict[k] = source_to_fn(v)` on a dict value: slot payloads are
resolved; a non-string, non-callable value passes through unchanged, exactly
as `source_to_fn` leaves non-strings unchanged. -/
def convertValue (E : ExecEnvs) : DumpValue → Except PyErr DumpValue
  | .slotInit u => do pure (.slotInit (pyslotToDumped (← source_to_fn E.initE u)))
  | .slotApply u => do pure (.slotApply (pyslotToDumped (← source_to_fn E.applyE u)))
  | .slotW2M u => do pure (.slotW2M (pyslotToDumped (← source_to_fn E.w2mE u)))
  | .slotM2W u => do pure (.slotM2W (pyslotToDumped (← source_to_fn E.m2wE u)))
  | .slotCalc u => do pure (.slotCalc (pyslotToDumped (← source_to_fn E.calcE u)))
  | .slotApplyD u => do pure (.slotApplyD (pyslotToDumped (← source_to_fn E.applyDE u)))
  | .slotWCopy u => do pure (.slotWCopy (pyslotToDumped (← source_to_fn E.wcopyE u)))
  | .slotIncr u => do pure (.slotIncr (pyslotToDumped (← source_to_fn E.incrE u)))
  | v => pure v

/-- `for k,v in inputDict.items(): if '_function' in k: inputDict[k] = source_to_fn(v)`. -/
def convertEntry (E : ExecEnvs) (kv : String × DumpValue) :
    Except PyErr (String × DumpValue) := do
  if strContainsSub kv.1 "_function" then
    pure (kv.1, ← convertValue E kv.2)
  else
    pure kv

def lookupKey (d : DumpDict) (k : String) : Option DumpValue :=
  (d.find? (fun kv => kv.1 == k)).map (fun kv => kv.2)

/-- Source text of the default weights-to-model function (a top-level module
function, so `inspect.getsource` succeeds on it). -/
def default_w2m_src : String :=
  "def default_keras_weights_to_model_function(modelObj, weights):\n    modelObj.model.set_weights(weights)\n"

def default_m2w_src : String :=
  "def default_keras_model_to_weights_function(modelObj):\n    return modelObj.model.get_weights()\n"

def default_calc_src : String :=
  "def default_keras_delta_function(lhs, rhs, threshold=None):\n    ...\n"

def default_applyd_src : String :=
  "def default_keras_apply_delta_function(lhs, rhs):\n    ...\n"

def default_wcopy_src : String :=
  "def default_keras_weight_copy_function(weights_in):\n    weights_out = []\n    for layer in weights_in:\n        weights_out.append(layer.copy())\n    return weights_out\n"

/-- The module-level default function objects (retrievable source, no
pre-attached `source` attribute). -/
def default_w2m_obj : FnObj W2MT :=
  ⟨default_keras_weights_to_model_function, some default_w2m_src, none⟩

def default_m2w_obj : FnObj M2WT :=
  ⟨default_keras_model_to_weights_function, some default_m2w_src, none⟩

def default_calc_obj : FnObj Unit := ⟨(), some default_calc_src, none⟩

def default_applyd_obj : FnObj Unit := ⟨(), some default_applyd_src, none⟩

def default_wcopy_obj : FnObj WCopyT :=
  ⟨default_keras_weight_copy_function, some default_wcopy_src, none⟩

/-- Keyword parameters accepted by `DynamicDLModel.__init__`. -/
def ctorKeys : List String :=
  ["model_id", "init_model_function", "apply_model_function",
   "weights_to_model_function", "model_to_weights_function",
   "calc_delta_function", "apply_delta_function", "weight_copy_function",
   "incremental_learn_function", "weights", "timestamp_id"]

/-- A resolved dict slot value as a constructor argument.  A raw source string
reaching `__init__` would make `inspect.getsource` raise an uncaught
`TypeError`; after `Load`'s conversion pass no string remains. -/
def dumpedToPyslot : DumpedSlot α → Except PyErr (PySlotVal α)
  | .none => .ok .none
  | .obj f => .ok (.fn f)
  | .src _ => .error .typeError

def getMid : Option DumpValue → Except PyErr String
  | some (.mid s) => .ok s
  | _ => .error .typeError

def getTsid : Option DumpValue → Except PyErr (Option String)
  | some (.tsid t) => .ok t
  | some _ => .error .typeError
  | none => .ok none

def getWs : Option DumpValue → Except PyErr (Option Weights)
  | some (.ws w) => .ok (some w)
  | some _ => .error .typeError
  | none => .ok none

def getSlotInit : Option DumpValue → Except PyErr (PySlotVal RModel)
  | some (.slotInit u) => dumpedToPyslot u
  | _ => .error .typeError

def getSlotApply : Option DumpValue → Except PyErr (PySlotVal ApplyT)
  | some (.slotApply u) => dumpedToPyslot u
  | _ => .error .typeError

def getSlotW2M : Option DumpValue → Except PyErr (PySlotVal W2MT)
  | some (.slotW2M u) => dumpedToPyslot u
  | some _ => .error .typeError
  | none => .ok (.fn default_w2m_obj)

def getSlotM2W : Option DumpValue → Except PyErr (PySlotVal M2WT)
  | some (.slotM2W u) => dumpedToPyslot u
  | some _ => .error .typeError
  | none => .ok (.fn default_m2w_obj)

def getSlotCalc : Option DumpValue → Except PyErr (PySlotVal Unit)
  | some (.slotCalc u) => dumpedToPyslot u
  | some _ => .error .typeError
  | none => .ok (.fn default_calc_obj)

def getSlotApplyD : Option DumpValue → Except PyErr (PySlotVal Unit)
  | some (.slotApplyD u) => dumpedToPyslot u
  | some _ => .error .typeError
  | none => .ok (.fn default_applyd_obj)

def getSlotWCopy : Option DumpValue → Except PyErr (PySlotVal WCopyT)
  | some (.slotWCopy u) => dumpedToPyslot u
  | some _ => .error .typeError
  | none => .ok (.fn default_wcopy_obj)

def getSlotIncr : Option DumpValue → Except PyErr (PySlotVal ILT)
  | some (.slotIncr u) => dumpedToPyslot u
  | some _ => .error .typeError
  | none => .ok .none

/-- `DynamicDLModel(**inputDict)`: unknown keys are a `TypeError`; absent keys
fall back to the constructor defaults; note the `weight_copy_function` default
is the module-level default object. -/
def mkFromDict (d : DumpDict) : Except PyErr DynamicDLModel := do
  if d.all (fun kv => ctorKeys.contains kv.1) then
    let mid ← getMid (lookupKey d "model_id")
    let initf ← getSlotInit (lookupKey d "init_model_function")
    let applyf ← getSlotApply (lookupKey d "apply_model_function")
    let w2mf ← getSlotW2M (lookupKey d "weights_to_model_function")
    let m2wf ← getSlotM2W (lookupKey d "model_to_weights_function")
    let calcf ← getSlotCalc (lookupKey d "calc_delta_function")
    let applydf ← getSlotApplyD (lookupKey d "apply_delta_function")
    let wcopyf ← getSlotWCopy (lookupKey d "weight_copy_function")
    let incrf ← getSlotIncr (lookupKey d "incremental_learn_function")
    let w ← getWs (lookupKey d "weights")
    let ts ← getTsid (lookupKey d "timestamp_id")
    DynamicDLModel.make mid initf applyf w2mf m2wf calcf applydf wcopyf incrf w ts
  else
    throw PyErr.typeError

/-- `Load`: resolve every `_function` entry of the decoded mapping back into a
callable, then construct the envelope through `__init__`. -/
def DynamicDLModel.Load (E : ExecEnvs) (d : DumpDict) : Except PyErr DynamicDLModel := do
  let d2 ← d.mapM (convertEntry E)
  mkFromDict d2

/-- `Loads`: `Load` on the byte stream carrying the same mapping. -/
def DynamicDLModel.Loads (E : ExecEnvs) (d : DumpDict) : Except PyErr DynamicDLModel :=
  DynamicDLModel.Load E d

/-! ### Store-level model of tensor buffers

numpy arrays are mutable buffers; aliasing is invisible to the pure value
model above, so the weight-copy slot is additionally modelled against an
explicit store: a tensor is a reference (index) into a store of buffers. -/

abbrev Store := List Tensor

def readTensor (σ : Store) (r : Nat) : Tensor := σ.getD r []

def writeTensor (σ : Store) (r : Nat) (v : Tensor) : Store := σ.set r v

/-- `default_keras_weight_copy_function` at the store level: for each input
reference, `layer.copy()` allocates a fresh buffer holding the same values;
the result is the grown store and the list of fresh references. -/
def weightCopyStore : Store → List Nat → Store × List Nat
  | σ, [] => (σ, [])
  | σ, r :: rs =>
    let σ2 := σ ++ [readTensor σ r]
    let p := weightCopyStore σ2 rs
    (p.1, σ.length :: p.2)

/-! ### Spec-side weight calculations (for refinement statements) -/

/-- Positionwise difference with optional sparsification, as the spec words
it: per position `lhs_weights[i] - rhs_weights[i]`, then zero every element
whose absolute value is strictly below the threshold. -/
def specDeltaW (t : Option ℚ) (lw rw : Weights) : Weights :=
  List.zipWith (fun a b => applyThresh t (tensorSub a b)) lw rw

/-- Positionwise sum, as the spec words it. -/
def specSumW (lw rw : Weights) : Weights := List.zipWith tensorAdd lw rw

/-- Equal-length, per-position equal-shape weight sequences. -/
def shapesMatch (lw rw : Weights) : Prop :=
  lw.length = rw.length ∧ ∀ p ∈ lw.zip rw, p.1.length = p.2.length

/-- Slot round trip: resolving the captured form of the slot succeeds and
yields a slot with the same call behavior.  This is what "capturable,
self-contained source" means observationally: re-executing the captured
source in a fresh namespace re-creates the function.  It holds trivially for
an absent (`None`) slot. -/
def slotRT (E : ExecEnv α) (v : PySlotVal α) : Prop :=
  (source_to_fn E (fn_to_source v)).map behOfSlot = .ok (behOfSlot v)

/-! ### Concrete instances -/

def initSrcW : String :=
  "def make_model():\n    from tensorflow import keras\n    return keras.models.Sequential()\n"

def applySrcW : String :=
  "def apply_model(modelObj, data):\n    return modelObj.model.predict(data)\n"

def initObjW : FnObj RModel := ⟨[[0, 0], [0]], some initSrcW, none⟩

def applyObjW : FnObj ApplyT := ⟨fun m x => tensorAdd (m.headD []) x, some applySrcW, none⟩

/-- A concrete envelope with the default accessor slots and weights
`[[1.0, 2.0], [3.0]]` (the spec's scenario envelope `A`). -/
def envA : DynamicDLModel :=
  { model := [[1, 2], [3]], model_id := "clf-v1", timestamp_id := none,
    init_model_function := .fn initObjW,
    apply_model_function := .fn applyObjW,
    weights_to_model_function := .fn default_w2m_obj,
    model_to_weights_function := .fn default_m2w_obj,
    calc_delta_function := .fn default_calc_obj,
    apply_delta_function := .fn default_applyd_obj,
    weight_copy_function := .fn default_wcopy_obj,
    incremental_learn_function := .none }

/-- The spec's scenario envelope `B`: same identity, weights `[[0.5, 2.0], [3.0]]`. -/
def envB : DynamicDLModel := { envA with model := [[1/2, 2], [3]] }

/-- Same weights as `envA` under a different `model_id`. -/
def envC : DynamicDLModel := { envA with model_id := "clf-v2" }

/-- Exec environments that re-create each captured default slot. -/
def execsW : ExecEnvs :=
  { initE := fun s => if s = initSrcW then some [.callable initObjW.beh] else none,
    applyE := fun s => if s = applySrcW then some [.callable applyObjW.beh] else none,
    w2mE := fun s =>
      if s = default_w2m_src then some [.callable default_keras_weights_to_model_function]
      else none,
    m2wE := fun s =>
      if s = default_m2w_src then some [.callable default_keras_model_to_weights_function]
      else none,
    calcE := fun s => if s = default_calc_src then some [.callable ()] else none,
    applyDE := fun s => if s = default_applyd_src then some [.callable ()] else none,
    wcopyE := fun _ => none,
    incrE := fun _ => none }

/-- A source text that defines no callable when executed. -/
def srcNoCallable : String := "import numpy as np\n"

/-- Exec environments where only the init source defines a callable; every
other source defines a non-callable binding (and the weight-copy environment
raises, which `Load` never consults). -/
def execsCex : ExecEnvs :=
  { initE := fun s => if s = initSrcW then some [.callable [[7]]] else none,
    applyE := fun _ => some [.notCallable],
    w2mE := fun _ => some [.notCallable],
    m2wE := fun _ => some [.notCallable],
    calcE := fun _ => some [.notCallable],
    applyDE := fun _ => some [.notCallable],
    wcopyE := fun _ => none,
    incrE := fun _ => some [.notCallable] }

/-- A dumped mapping whose non-init slots all carry source defining no
callable, with falsy (empty) weights. -/
def dictCex : DumpDict :=
  [("model_id", DumpValue.mid "m1"),
   ("init_model_function", DumpValue.slotInit (.src initSrcW)),
   ("apply_model_function", DumpValue.slotApply (.src srcNoCallable)),
   ("weights_to_model_function", DumpValue.slotW2M (.src srcNoCallable)),
   ("model_to_weights_function", DumpValue.slotM2W (.src srcNoCallable)),
   ("calc_delta_function", DumpValue.slotCalc (.src srcNoCallable)),
   ("apply_delta_function", DumpValue.slotApplyD (.src srcNoCallable)),
   ("incremental_learn_function", DumpValue.slotIncr (.src srcNoCallable)),
   ("weights", DumpValue.ws []),
   ("timestamp_id", DumpValue.tsid none)]


/-- A capturable weights-to-model slot that violates the accessor contract:
it stores the weight sequence appended to itself. -/
def w2mDoubleSrc : String :=
  "def double_w2m(modelObj, weights):\n    modelObj.model.set_weights(weights + weights)\n"

def w2mDoubleObj : FnObj W2MT := ⟨fun _m w => w ++ w, some w2mDoubleSrc, none⟩

/-- The envelope normal construction with weights `[[1]]` and the doubling
slot yields: runtime state `[[1], [1]]`. -/
def envDouble : DynamicDLModel :=
  { envA with model := [[1], [1]], weights_to_model_function := .fn w2mDoubleObj }

/-- Same identity and same (shape-equal) weight sequence as `envDouble`, with
the default accessor slots. -/
def envY : DynamicDLModel := { envA with model := [[1], [1]] }

/-- Exec environments that also re-create the doubling slot (its source is
fully self-contained). -/
def execsD : ExecEnvs :=
  { execsW with
    w2mE := fun s =>
      if s = w2mDoubleSrc then some [.callable (fun _m w => w ++ w)] else none }

/-! ### Helper lemmas -/

/-- The `source` attribute after the constructor's attachment block. -/
def attachedSrc (g : FnObj α) : Option String :=
  match g.insp with
  | some s => some s
  | none => g.srcAttr

theorem attachSource_eq_fn (g : FnObj α) :
    attachSource (.fn g) = .fn ⟨g.beh, g.insp, attachedSrc g⟩ := by
  obtain ⟨b, i, a⟩ := g
  cases i with
  | some s => simp [attachSource, fn_to_source, attachedSrc]
  | none =>
    cases a with
    | some s => simp [attachSource, fn_to_source, attachedSrc]
    | none => simp [attachSource, fn_to_source, attachedSrc]

theorem attachSource_none : attachSource (α := α) .none = .none := rfl

theorem behOfSlot_attach (v : PySlotVal α) :
    behOfSlot (attachSource v) = behOfSlot v := by
  cases v with
  | none => rfl
  | fn g => rw [attachSource_eq_fn]; rfl

theorem make_none_eq (mid : String) (i : FnObj RModel)
    (va : PySlotVal ApplyT) (vf : PySlotVal W2MT) (vg : PySlotVal M2WT)
    (vc vd : PySlotVal Unit) (vw : PySlotVal WCopyT) (vl : PySlotVal ILT)
    (ts : Option String) :
    DynamicDLModel.make mid (.fn i) va vf vg vc vd vw vl none ts =
      .ok { model := i.beh, model_id := mid, timestamp_id := ts,
            init_model_function := attachSource (.fn i),
            apply_model_function := attachSource va,
            weights_to_model_function := attachSource vf,
            model_to_weights_function := attachSource vg,
            calc_delta_function := attachSource vc,
            apply_delta_function := attachSource vd,
            weight_copy_function := attachSource vw,
            incremental_learn_function := attachSource vl } := by
  simp [DynamicDLModel.make, attachSource_eq_fn, pycall, Bind.bind, Except.bind, Pure.pure, Except.pure]

theorem make_some_eq (mid : String) (i : FnObj RModel)
    (va : PySlotVal ApplyT) (f : FnObj W2MT) (vg : PySlotVal M2WT)
    (vc vd : PySlotVal Unit) (vw : PySlotVal WCopyT) (vl : PySlotVal ILT)
    (w : Weights) (hw : w ≠ []) (ts : Option String) :
    DynamicDLModel.make mid (.fn i) va (.fn f) vg vc vd vw vl (some w) ts =
      .ok { model := f.beh i.beh w, model_id := mid, timestamp_id := ts,
            init_model_function := attachSource (.fn i),
            apply_model_function := attachSource va,
            weights_to_model_function := attachSource (.fn f),
            model_to_weights_function := attachSource vg,
            calc_delta_function := attachSource vc,
            apply_delta_function := attachSource vd,
            weight_copy_function := attachSource vw,
            incremental_learn_function := attachSource vl } := by
  simp [DynamicDLModel.make, DynamicDLModel.set_weights, attachSource_eq_fn,
    pycall, Bind.bind, Except.bind, Pure.pure, Except.pure, hw]

theorem get_weights_eq (e : DynamicDLModel) (g : FnObj M2WT)
    (hg : e.model_to_weights_function = .fn g) :
    e.get_weights = .ok (g.beh e.model) := by
  simp [DynamicDLModel.get_weights, hg, pycall, Bind.bind, Except.bind, Pure.pure, Except.pure]

theorem set_weights_eq (e : DynamicDLModel) (f : FnObj W2MT)
    (hf : e.weights_to_model_function = .fn f) (w : Weights) :
    e.set_weights w = .ok { e with model := f.beh e.model w } := by
  simp [DynamicDLModel.set_weights, hf, pycall, Bind.bind, Except.bind, Pure.pure, Except.pure]

theorem apply_eq (e : DynamicDLModel) (a : FnObj ApplyT)
    (ha : e.apply_model_function = .fn a) (x : DataT) :
    e.apply x = .ok (a.beh e.model x) := by
  simp [DynamicDLModel.apply, ha, pycall, Bind.bind, Except.bind, Pure.pure, Except.pure]

theorem deltaLoop_ok (t : Option ℚ) (lw rw : Weights)
    (h : lw.length ≤ rw.length) :
    deltaLoop t lw rw = .ok (specDeltaW t lw rw) := by
  induction lw generalizing rw with
  | nil => simp [deltaLoop, specDeltaW]
  | cons a la ih =>
    cases rw with
    | nil => simp at h
    | cons b lb =>
      simp only [List.length_cons, Nat.succ_le_succ_iff] at h
      simp [deltaLoop, specDeltaW, ih lb h, Bind.bind, Except.bind, Pure.pure, Except.pure]

theorem sumLoop_ok (lw rw : Weights) (h : lw.length ≤ rw.length) :
    sumLoop lw rw = .ok (specSumW lw rw) := by
  induction lw generalizing rw with
  | nil => simp [sumLoop, specSumW]
  | cons a la ih =>
    cases rw with
    | nil => simp at h
    | cons b lb =>
      simp only [List.length_cons, Nat.succ_le_succ_iff] at h
      simp [sumLoop, specSumW, ih lb h, Bind.bind, Except.bind, Pure.pure, Except.pure]

theorem tensor_sub_add_cancel (a b : Tensor) (h : a.length = b.length) :
    tensorAdd (tensorSub a b) b = a := by
  induction a generalizing b with
  | nil => simp [tensorSub, tensorAdd]
  | cons x xs ih =>
    cases b with
    | nil => simp at h
    | cons y ys =>
      simp only [List.length_cons, Nat.succ_inj] at h
      have hrec := ih ys h
      simp only [tensorSub, tensorAdd] at hrec ⊢
      simp [hrec]

theorem specSum_specDelta_cancel (lw rw : Weights) (h : shapesMatch lw rw) :
    specSumW (specDeltaW none lw rw) rw = lw := by
  obtain ⟨hlen, hshape⟩ := h
  induction lw generalizing rw with
  | nil => simp [specDeltaW, specSumW]
  | cons a la ih =>
    cases rw with
    | nil => simp at hlen
    | cons b lb =>
      simp only [List.length_cons, Nat.succ_inj] at hlen
      have hab : a.length = b.length := hshape (a, b) (by simp [List.zip])
      have hrest : ∀ p ∈ la.zip lb, p.1.length = p.2.length := by
        intro p hp
        exact hshape p (by simp [List.zip]; right; simpa [List.zip] using hp)
      have hrec := ih lb hlen hrest
      simp only [specDeltaW, specSumW, applyThresh] at hrec ⊢
      simp [tensor_sub_add_cancel a b hab, hrec]

@[simp] theorem ok_bind (a : α) (k : α → Except PyErr β) :
    (Except.ok a : Except PyErr α) >>= k = k a := rfl

@[simp] theorem error_bind (e : PyErr) (k : α → Except PyErr β) :
    (Except.error e : Except PyErr α) >>= k = Except.error e := rfl

@[simp] theorem pure_eq_ok (a : α) : (pure a : Except PyErr α) = .ok a := rfl

theorem get_empty_copy_eq (e : DynamicDLModel) (i : FnObj RModel)
    (hi : e.init_model_function = .fn i) :
    e.get_empty_copy =
      .ok { model := i.beh, model_id := e.model_id, timestamp_id := e.timestamp_id,
            init_model_function := attachSource (.fn i),
            apply_model_function := attachSource e.apply_model_function,
            weights_to_model_function := attachSource e.weights_to_model_function,
            model_to_weights_function := attachSource e.model_to_weights_function,
            calc_delta_function := attachSource e.calc_delta_function,
            apply_delta_function := attachSource e.apply_delta_function,
            weight_copy_function := attachSource e.weight_copy_function,
            incremental_learn_function := attachSource e.incremental_learn_function } := by
  rw [DynamicDLModel.get_empty_copy, hi, make_none_eq]

/-- Full characterization of a successful `default_keras_delta_function` run. -/
theorem calc_delta_ok (A B : DynamicDLModel) (t : Option ℚ)
    (iA : FnObj RModel) (fA : FnObj W2MT) (gA gB : FnObj M2WT)
    (hiA : A.init_model_function = .fn iA)
    (hfA : A.weights_to_model_function = .fn fA)
    (hgA : A.model_to_weights_function = .fn gA)
    (hgB : B.model_to_weights_function = .fn gB)
    (hid : A.model_id = B.model_id)
    (hlen : (gA.beh A.model).length ≤ (gB.beh B.model).length) :
    default_keras_delta_function A B t =
      .ok { model := fA.beh iA.beh (specDeltaW t (gA.beh A.model) (gB.beh B.model)),
            model_id := A.model_id, timestamp_id := A.timestamp_id,
            init_model_function := attachSource (.fn iA),
            apply_model_function := attachSource A.apply_model_function,
            weights_to_model_function := attachSource (.fn fA),
            model_to_weights_function := attachSource (.fn gA),
            calc_delta_function := attachSource A.calc_delta_function,
            apply_delta_function := attachSource A.apply_delta_function,
            weight_copy_function := attachSource A.weight_copy_function,
            incremental_learn_function := attachSource A.incremental_learn_function } := by
  have hne : ¬ (A.model_id ≠ B.model_id) := by simp [hid]
  rw [default_keras_delta_function, if_neg hne]
  simp only [ok_bind, pure_eq_ok, get_weights_eq A gA hgA, get_weights_eq B gB hgB]
  rw [deltaLoop_ok t _ _ hlen]
  simp only [ok_bind]
  rw [get_empty_copy_eq A iA hiA]
  simp only [ok_bind, hfA, hgA, attachSource_eq_fn]
  rw [set_weights_eq _ ⟨fA.beh, fA.insp, attachedSrc fA⟩ rfl]

/-- Full characterization of a successful `default_keras_apply_delta_function` run. -/
theorem apply_delta_ok (A B : DynamicDLModel)
    (iA : FnObj RModel) (fA : FnObj W2MT) (gA gB : FnObj M2WT)
    (hiA : A.init_model_function = .fn iA)
    (hfA : A.weights_to_model_function = .fn fA)
    (hgA : A.model_to_weights_function = .fn gA)
    (hgB : B.model_to_weights_function = .fn gB)
    (hid : A.model_id = B.model_id)
    (hlen : (gA.beh A.model).length ≤ (gB.beh B.model).length) :
    default_keras_apply_delta_function A B =
      .ok { model := fA.beh iA.beh (specSumW (gA.beh A.model) (gB.beh B.model)),
            model_id := A.model_id, timestamp_id := A.timestamp_id,
            init_model_function := attachSource (.fn iA),
            apply_model_function := attachSource A.apply_model_function,
            weights_to_model_function := attachSource (.fn fA),
            model_to_weights_function := attachSource (.fn gA),
            calc_delta_function := attachSource A.calc_delta_function,
            apply_delta_function := attachSource A.apply_delta_function,
            weight_copy_function := attachSource A.weight_copy_function,
            incremental_learn_function := attachSource A.incremental_learn_function } := by
  have hne : ¬ (A.model_id ≠ B.model_id) := by simp [hid]
  rw [default_keras_apply_delta_function, if_neg hne]
  simp only [ok_bind, pure_eq_ok, get_weights_eq A gA hgA, get_weights_eq B gB hgB]
  rw [sumLoop_ok _ _ hlen]
  simp only [ok_bind]
  rw [get_empty_copy_eq A iA hiA]
  simp only [ok_bind, hfA, hgA, attachSource_eq_fn]
  rw [set_weights_eq _ ⟨fA.beh, fA.insp, attachedSrc fA⟩ rfl]

theorem slotRT_elim (E : ExecEnv α) (v : PySlotVal α) (h : slotRT E v) :
    ∃ v2, source_to_fn E (fn_to_source v) = .ok v2 ∧ behOfSlot v2 = behOfSlot v := by
  unfold slotRT at h
  cases hres : source_to_fn E (fn_to_source v) with
  | ok v2 =>
    rw [hres] at h
    exact ⟨v2, rfl, by simpa [Except.map] using h⟩
  | error err =>
    rw [hres] at h
    simp [Except.map] at h

theorem behOfSlot_fn (v : PySlotVal α) (b : α) (h : behOfSlot v = some b) :
    ∃ g2, v = .fn g2 ∧ g2.beh = b := by
  cases v with
  | none => simp [behOfSlot] at h
  | fn g2 => exact ⟨g2, rfl, by simpa [behOfSlot] using h⟩

theorem dumpedToPyslot_pyslot (v : PySlotVal α) :
    dumpedToPyslot (pyslotToDumped v) = .ok v := by
  cases v <;> rfl

theorem make_fn_eq (mid : String) (i : FnObj RModel) (va : PySlotVal ApplyT)
    (f2 : FnObj W2MT) (vg : PySlotVal M2WT) (vc vd : PySlotVal Unit)
    (vw : PySlotVal WCopyT) (vl : PySlotVal ILT) (w : Weights) (ts : Option String) :
    DynamicDLModel.make mid (.fn i) va (.fn f2) vg vc vd vw vl (some w) ts =
      .ok { model := if w = [] then i.beh else f2.beh i.beh w,
            model_id := mid, timestamp_id := ts,
            init_model_function := attachSource (.fn i),
            apply_model_function := attachSource va,
            weights_to_model_function := attachSource (.fn f2),
            model_to_weights_function := attachSource vg,
            calc_delta_function := attachSource vc,
            apply_delta_function := attachSource vd,
            weight_copy_function := attachSource vw,
            incremental_learn_function := attachSource vl } := by
  by_cases hw : w = []
  · subst hw
    simp [DynamicDLModel.make, attachSource_eq_fn, pycall]
  · rw [make_some_eq mid i va f2 vg vc vd vw vl w hw ts, if_neg hw]

@[simp] theorem key_model_id : strContainsSub "model_id" "_function" = false := by decide

@[simp] theorem key_weights : strContainsSub "weights" "_function" = false := by decide

@[simp] theorem key_timestamp_id : strContainsSub "timestamp_id" "_function" = false := by
  decide

@[simp] theorem key_init : strContainsSub "init_model_function" "_function" = true := by
  decide

@[simp] theorem key_apply : strContainsSub "apply_model_function" "_function" = true := by
  decide

@[simp] theorem key_w2m :
    strContainsSub "weights_to_model_function" "_function" = true := by decide

@[simp] theorem key_m2w :
    strContainsSub "model_to_weights_function" "_function" = true := by decide

@[simp] theorem key_calc :
    strContainsSub "calc_delta_function" "_function" = true := by decide

@[simp] theorem key_applyd :
    strContainsSub "apply_delta_function" "_function" = true := by decide

@[simp] theorem key_incr :
    strContainsSub "incremental_learn_function" "_function" = true := by decide

/-! ### Claim theorems -/

/-- Evaluation of `DynamicDLModel(**inputDict)` on a converted dump mapping:
the keys are accepted, each slot entry feeds the matching keyword parameter,
and the absent `weight_copy_function` key falls back to the module-level
default weight-copy function. -/
theorem mkFromDict_standard (mid : String) (ts : Option String) (w : Weights)
    (uI : DumpedSlot RModel) (uA : DumpedSlot ApplyT) (uF : DumpedSlot W2MT)
    (uG : DumpedSlot M2WT) (uC uD : DumpedSlot Unit) (uL : DumpedSlot ILT) :
    mkFromDict
      [("model_id", DumpValue.mid mid),
       ("init_model_function", DumpValue.slotInit uI),
       ("apply_model_function", DumpValue.slotApply uA),
       ("weights_to_model_function", DumpValue.slotW2M uF),
       ("model_to_weights_function", DumpValue.slotM2W uG),
       ("calc_delta_function", DumpValue.slotCalc uC),
       ("apply_delta_function", DumpValue.slotApplyD uD),
       ("incremental_learn_function", DumpValue.slotIncr uL),
       ("weights", DumpValue.ws w),
       ("timestamp_id", DumpValue.tsid ts)] =
      (do
        let vi ← dumpedToPyslot uI
        let va ← dumpedToPyslot uA
        let vf ← dumpedToPyslot uF
        let vg ← dumpedToPyslot uG
        let vc ← dumpedToPyslot uC
        let vd ← dumpedToPyslot uD
        let vl ← dumpedToPyslot uL
        DynamicDLModel.make mid vi va vf vg vc vd (.fn default_wcopy_obj) vl (some w) ts) := by
  rfl

/-- C1: serialization round trip.  For an envelope whose slots all have
capturable, self-contained source (resolving each captured slot re-creates
its behavior, `slotRT`), and whose runtime state coincides with that of a
freshly constructed instance loaded with its current weights (as holds for
every envelope built with the default accessor slots), loading the dump
yields an envelope with elementwise-equal `get_weights` and pointwise-equal
`apply`. -/
theorem load_dump_roundtrip (EE : ExecEnvs) (e : DynamicDLModel)
    (i : FnObj RModel) (a : FnObj ApplyT) (f : FnObj W2MT) (g : FnObj M2WT)
    (hi : e.init_model_function = .fn i)
    (ha : e.apply_model_function = .fn a)
    (hf : e.weights_to_model_function = .fn f)
    (hg : e.model_to_weights_function = .fn g)
    (h1 : slotRT EE.initE e.init_model_function)
    (h2 : slotRT EE.applyE e.apply_model_function)
    (h3 : slotRT EE.w2mE e.weights_to_model_function)
    (h4 : slotRT EE.m2wE e.model_to_weights_function)
    (h5 : slotRT EE.calcE e.calc_delta_function)
    (h6 : slotRT EE.applyDE e.apply_delta_function)
    (h7 : slotRT EE.incrE e.incremental_learn_function)
    (hrecon : (if g.beh e.model = [] then i.beh
               else f.beh i.beh (g.beh e.model)) = e.model) :
    ∃ d e2, e.dump = .ok d ∧ DynamicDLModel.Load EE d = .ok e2 ∧
      e2.get_weights = e.get_weights ∧ ∀ x, e2.apply x = e.apply x := by
  obtain ⟨vI, hrI, hbI⟩ := slotRT_elim EE.initE _ h1
  obtain ⟨vA, hrA, hbA⟩ := slotRT_elim EE.applyE _ h2
  obtain ⟨vF, hrF, hbF⟩ := slotRT_elim EE.w2mE _ h3
  obtain ⟨vG, hrG, hbG⟩ := slotRT_elim EE.m2wE _ h4
  obtain ⟨vC, hrC, _⟩ := slotRT_elim EE.calcE _ h5
  obtain ⟨vD2, hrD, _⟩ := slotRT_elim EE.applyDE _ h6
  obtain ⟨vL, hrL, _⟩ := slotRT_elim EE.incrE _ h7
  obtain ⟨i2, hvI, hbi2⟩ := behOfSlot_fn vI i.beh (by rw [hbI, hi]; rfl)
  obtain ⟨a2, hvA, hba2⟩ := behOfSlot_fn vA a.beh (by rw [hbA, ha]; rfl)
  obtain ⟨f2, hvF, hbf2⟩ := behOfSlot_fn vF f.beh (by rw [hbF, hf]; rfl)
  obtain ⟨g2, hvG, hbg2⟩ := behOfSlot_fn vG g.beh (by rw [hbG, hg]; rfl)
  subst hvI hvA hvF hvG
  have hdump : e.dump = .ok
      [("model_id", DumpValue.mid e.model_id),
       ("init_model_function", DumpValue.slotInit (fn_to_source e.init_model_function)),
       ("apply_model_function", DumpValue.slotApply (fn_to_source e.apply_model_function)),
       ("weights_to_model_function",
         DumpValue.slotW2M (fn_to_source e.weights_to_model_function)),
       ("model_to_weights_function",
         DumpValue.slotM2W (fn_to_source e.model_to_weights_function)),
       ("calc_delta_function", DumpValue.slotCalc (fn_to_source e.calc_delta_function)),
       ("apply_delta_function", DumpValue.slotApplyD (fn_to_source e.apply_delta_function)),
       ("incremental_learn_function",
         DumpValue.slotIncr (fn_to_source e.incremental_learn_function)),
       ("weights", DumpValue.ws (g.beh e.model)),
       ("timestamp_id", DumpValue.tsid e.timestamp_id)] := by
    rw [DynamicDLModel.dump, get_weights_eq e g hg]
    rfl
  have hconv :
      [("model_id", DumpValue.mid e.model_id),
       ("init_model_function", DumpValue.slotInit (fn_to_source e.init_model_function)),
       ("apply_model_function", DumpValue.slotApply (fn_to_source e.apply_model_function)),
       ("weights_to_model_function",
         DumpValue.slotW2M (fn_to_source e.weights_to_model_function)),
       ("model_to_weights_function",
         DumpValue.slotM2W (fn_to_source e.model_to_weights_function)),
       ("calc_delta_function", DumpValue.slotCalc (fn_to_source e.calc_delta_function)),
       ("apply_delta_function", DumpValue.slotApplyD (fn_to_source e.apply_delta_function)),
       ("incremental_learn_function",
         DumpValue.slotIncr (fn_to_source e.incremental_learn_function)),
       ("weights", DumpValue.ws (g.beh e.model)),
       ("timestamp_id", DumpValue.tsid e.timestamp_id)].mapM (convertEntry EE) = .ok
      [("model_id", DumpValue.mid e.model_id),
       ("init_model_function", DumpValue.slotInit (pyslotToDumped (.fn i2))),
       ("apply_model_function", DumpValue.slotApply (pyslotToDumped (.fn a2))),
       ("weights_to_model_function", DumpValue.slotW2M (pyslotToDumped (.fn f2))),
       ("model_to_weights_function", DumpValue.slotM2W (pyslotToDumped (.fn g2))),
       ("calc_delta_function", DumpValue.slotCalc (pyslotToDumped vC)),
       ("apply_delta_function", DumpValue.slotApplyD (pyslotToDumped vD2)),
       ("incremental_learn_function", DumpValue.slotIncr (pyslotToDumped vL)),
       ("weights", DumpValue.ws (g.beh e.model)),
       ("timestamp_id", DumpValue.tsid e.timestamp_id)] := by
    simp only [List.mapM_cons, List.mapM_nil, convertEntry, convertValue,
      key_model_id, key_weights, key_timestamp_id, key_init, key_apply, key_w2m,
      key_m2w, key_calc, key_applyd, key_incr,
      hrI, hrA, hrF, hrG, hrC, hrD, hrL, ok_bind, pure_eq_ok,
      Bool.false_eq_true, if_true, if_false, ite_false, ite_true]
  have hload : DynamicDLModel.Load EE
      [("model_id", DumpValue.mid e.model_id),
       ("init_model_function", DumpValue.slotInit (fn_to_source e.init_model_function)),
       ("apply_model_function", DumpValue.slotApply (fn_to_source e.apply_model_function)),
       ("weights_to_model_function",
         DumpValue.slotW2M (fn_to_source e.weights_to_model_function)),
       ("model_to_weights_function",
         DumpValue.slotM2W (fn_to_source e.model_to_weights_function)),
       ("calc_delta_function", DumpValue.slotCalc (fn_to_source e.calc_delta_function)),
       ("apply_delta_function", DumpValue.slotApplyD (fn_to_source e.apply_delta_function)),
       ("incremental_learn_function",
         DumpValue.slotIncr (fn_to_source e.incremental_learn_function)),
       ("weights", DumpValue.ws (g.beh e.model)),
       ("timestamp_id", DumpValue.tsid e.timestamp_id)] = .ok
      { model := if g.beh e.model = [] then i2.beh else f2.beh i2.beh (g.beh e.model),
        model_id := e.model_id, timestamp_id := e.timestamp_id,
        init_model_function := attachSource (.fn i2),
        apply_model_function := attachSource (.fn a2),
        weights_to_model_function := attachSource (.fn f2),
        model_to_weights_function := attachSource (.fn g2),
        calc_delta_function := attachSource vC,
        apply_delta_function := attachSource vD2,
        weight_copy_function := attachSource (.fn default_wcopy_obj),
        incremental_learn_function := attachSource vL } := by
    rw [DynamicDLModel.Load, hconv]
    simp only [ok_bind]
    rw [mkFromDict_standard]
    simp only [dumpedToPyslot_pyslot, ok_bind]
    rw [make_fn_eq]
  refine ⟨_, _, hdump, hload, ?_, ?_⟩
  · rw [get_weights_eq _ ⟨g2.beh, g2.insp, attachedSrc g2⟩ (attachSource_eq_fn g2),
      get_weights_eq e g hg]
    simp only [hbg2, hbi2, hbf2]
    rw [hrecon]
  · intro x
    rw [apply_eq _ ⟨a2.beh, a2.insp, attachedSrc a2⟩ (attachSource_eq_fn a2),
      apply_eq e a ha]
    simp only [hba2, hbg2, hbi2, hbf2]
    rw [hrecon]

/-- C4: `calc_delta` computes, per position, `lhs_weights[i] - rhs_weights[i]`,
and with a threshold additionally zeroes every element whose absolute value is
strictly below it.  The hypotheses are the claim's stated requirements (same
identity, equal-length sequences) plus the spec's accessor-slot contract: the
weights-to-model and model-to-weights slots of `lhs` store and retrieve
weights. -/
theorem calc_delta_weights (A B : DynamicDLModel) (t : Option ℚ)
    (iA : FnObj RModel) (fA : FnObj W2MT) (gA gB : FnObj M2WT)
    (hiA : A.init_model_function = .fn iA)
    (hfA : A.weights_to_model_function = .fn fA)
    (hgA : A.model_to_weights_function = .fn gA)
    (hgB : B.model_to_weights_function = .fn gB)
    (hcoh : ∀ m w, gA.beh (fA.beh m w) = w)
    (hid : A.model_id = B.model_id)
    (hlen : (gA.beh A.model).length = (gB.beh B.model).length) :
    ∃ D, default_keras_delta_function A B t = .ok D ∧
      D.get_weights = .ok (specDeltaW t (gA.beh A.model) (gB.beh B.model)) := by
  refine ⟨_, calc_delta_ok A B t iA fA gA gB hiA hfA hgA hgB hid hlen.le, ?_⟩
  rw [get_weights_eq _ ⟨gA.beh, gA.insp, attachedSrc gA⟩ (attachSource_eq_fn gA)]
  simp [hcoh]

/-- C2: exact inverse.  For envelopes with equal `model_id` and equal-length,
equal-shape weight sequences (and accessor slots that store and retrieve
weights, the spec's slot contract),
`apply_delta(calc_delta(A,B,None), B).get_weights()` equals
`A.get_weights()` elementwise. -/
theorem apply_delta_calc_delta_inverse (A B : DynamicDLModel)
    (iA : FnObj RModel) (fA : FnObj W2MT) (gA gB : FnObj M2WT)
    (hiA : A.init_model_function = .fn iA)
    (hfA : A.weights_to_model_function = .fn fA)
    (hgA : A.model_to_weights_function = .fn gA)
    (hgB : B.model_to_weights_function = .fn gB)
    (hcoh : ∀ m w, gA.beh (fA.beh m w) = w)
    (hid : A.model_id = B.model_id)
    (hshape : shapesMatch (gA.beh A.model) (gB.beh B.model)) :
    ∃ D R, default_keras_delta_function A B none = .ok D ∧
      default_keras_apply_delta_function D B = .ok R ∧
      R.get_weights = A.get_weights := by
  have hD := calc_delta_ok A B none iA fA gA gB hiA hfA hgA hgB hid hshape.1.le
  have hlenD :
      (gA.beh (fA.beh iA.beh (specDeltaW none (gA.beh A.model) (gB.beh B.model)))).length ≤
        (gB.beh B.model).length := by
    rw [hcoh]
    simp only [specDeltaW, List.length_zipWith]
    exact min_le_right _ _
  refine ⟨_, _, hD, apply_delta_ok _ B ⟨iA.beh, iA.insp, attachedSrc iA⟩
    ⟨fA.beh, fA.insp, attachedSrc fA⟩ ⟨gA.beh, gA.insp, attachedSrc gA⟩ gB
    (attachSource_eq_fn iA) (attachSource_eq_fn fA) (attachSource_eq_fn gA) hgB hid hlenD, ?_⟩
  rw [get_weights_eq A gA hgA, get_weights_eq _
    ⟨gA.beh, gA.insp, attachedSrc (⟨gA.beh, gA.insp, attachedSrc gA⟩ : FnObj M2WT)⟩
    (attachSource_eq_fn _)]
  simp only [hcoh]
  rw [specSum_specDelta_cancel _ _ hshape]

theorem weightCopyStore_fst_ext (σ : Store) (rs : List Nat) :
    ∃ τ, (weightCopyStore σ rs).1 = σ ++ τ := by
  induction rs generalizing σ with
  | nil => exact ⟨[], by simp [weightCopyStore]⟩
  | cons r rest ih =>
    obtain ⟨τ, hτ⟩ := ih (σ ++ [readTensor σ r])
    exact ⟨[readTensor σ r] ++ τ, by simp [weightCopyStore, hτ]⟩

theorem readTensor_append (σ τ : Store) (r : Nat) (h : r < σ.length) :
    readTensor (σ ++ τ) r = readTensor σ r := by
  simp [readTensor, List.getD_eq_getElem?_getD, List.getElem?_append_left h]

theorem weightCopyStore_refs_fresh (σ : Store) (rs : List Nat) :
    ∀ r2 ∈ (weightCopyStore σ rs).2, σ.length ≤ r2 := by
  induction rs generalizing σ with
  | nil => simp [weightCopyStore]
  | cons r rest ih =>
    intro r2 h2
    simp only [weightCopyStore, List.mem_cons] at h2
    rcases h2 with h2 | h2
    · exact h2 ▸ le_refl _
    · have := ih (σ ++ [readTensor σ r]) r2 h2
      simp only [List.length_append, List.length_cons, List.length_nil] at this
      omega

theorem weightCopyStore_values (σ : Store) (rs : List Nat)
    (hv : ∀ r ∈ rs, r < σ.length) :
    ∀ p ∈ rs.zip (weightCopyStore σ rs).2,
      readTensor (weightCopyStore σ rs).1 p.2 = readTensor σ p.1 := by
  induction rs generalizing σ with
  | nil => simp [weightCopyStore]
  | cons r rest ih =>
    intro p hp
    simp only [weightCopyStore, List.zip_cons_cons, List.mem_cons] at hp
    obtain ⟨τ, hτ⟩ := weightCopyStore_fst_ext (σ ++ [readTensor σ r]) rest
    rcases hp with hp | hp
    · subst hp
      simp only [weightCopyStore, hτ]
      rw [readTensor_append _ _ _ (by simp)]
      simp [readTensor, List.getD_eq_getElem?_getD]
    · have hr : r < σ.length := hv r (by simp)
      have hv2 : ∀ q ∈ rest, q < (σ ++ [readTensor σ r]).length := by
        intro q hq
        have := hv q (List.mem_cons_of_mem _ hq)
        simp only [List.length_append, List.length_cons, List.length_nil]
        omega
      have hmem := List.of_mem_zip hp
      have := ih (σ ++ [readTensor σ r]) hv2 p hp
      simp only [weightCopyStore]
      rw [this, readTensor_append _ _ _ (hv p.1 (List.mem_cons_of_mem _ hmem.1))]

/-- C9: copy isolation.  At the buffer-store level, the weight-copy slot
(`layer.copy()` per tensor, as `copy()` performs through
`weight_copy_function` before loading the copy) allocates only fresh
references disjoint from every existing one, duplicates each tensor's values,
and overwriting any of the fresh buffers leaves every source tensor unchanged:
mutating the copy's weights never changes the source envelope's weights. -/
theorem weight_copy_isolation (σ : Store) (rs : List Nat)
    (hv : ∀ r ∈ rs, r < σ.length) :
    (∀ r2 ∈ (weightCopyStore σ rs).2, σ.length ≤ r2) ∧
    (∀ p ∈ rs.zip (weightCopyStore σ rs).2,
      readTensor (weightCopyStore σ rs).1 p.2 = readTensor σ p.1) ∧
    (∀ r2 ∈ (weightCopyStore σ rs).2, ∀ v : Tensor, ∀ r ∈ rs,
      readTensor (writeTensor (weightCopyStore σ rs).1 r2 v) r = readTensor σ r) := by
  refine ⟨weightCopyStore_refs_fresh σ rs, weightCopyStore_values σ rs hv, ?_⟩
  intro r2 h2 v r hr
  have hfresh := weightCopyStore_refs_fresh σ rs r2 h2
  have hrlt := hv r hr
  have hne : r2 ≠ r := by omega
  obtain ⟨τ, hτ⟩ := weightCopyStore_fst_ext σ rs
  rw [writeTensor, readTensor, List.getD_eq_getElem?_getD, List.getElem?_set_ne hne,
    ← List.getD_eq_getElem?_getD, ← readTensor, hτ, readTensor_append _ _ _ hrlt]

/-- C3: for envelopes with differing `model_id`, both the delta function (for
any threshold) and the apply-delta function raise `IncompatibleModel`,
regardless of the weight values. -/
theorem delta_identity_guard (A B : DynamicDLModel) (t : Option ℚ)
    (h : A.model_id ≠ B.model_id) :
    default_keras_delta_function A B t = .error .incompatibleModel ∧
    default_keras_apply_delta_function A B = .error .incompatibleModel := by
  constructor
  · simp only [default_keras_delta_function]
    rw [if_pos h]
    rfl
  · simp only [default_keras_apply_delta_function]
    rw [if_pos h]
    rfl

/-- C6: when the optional incremental-learn slot is absent (`None`),
`incremental_learn` fails: the call of `None` is the implementation's
unsupported-operation condition (Python raises `TypeError`). -/
theorem incremental_learn_absent_fails (e : DynamicDLModel)
    (ins outs : List DataT) (bs ms : Nat)
    (h : e.incremental_learn_function = .none) :
    e.incremental_learn ins outs bs ms = .error .typeError := by
  simp [DynamicDLModel.incremental_learn, h, pycall, Bind.bind, Except.bind]

/-- C8: capture/resolution round trip.  For a callable with capturable,
self-contained source (re-executing the captured source defines a callable
with the same behavior), resolving the capture yields a callable that is
behaviorally equivalent, and the attached provenance makes a later capture
recover the same source; a `None` slot captures and resolves to `None`. -/
theorem capture_resolve_roundtrip {α : Type} (E : ExecEnv α) (f : FnObj α)
    (s : String) (l : List (ExecBinding α))
    (hcap : fn_to_source (.fn f) = .src s)
    (hex : E s = some l)
    (hfc : firstCallable l = some f.beh) :
    (∃ g : FnObj α, source_to_fn E (fn_to_source (.fn f)) = .ok (.fn g) ∧
       g.beh = f.beh ∧ fn_to_source (.fn g) = .src s) ∧
    source_to_fn E (fn_to_source (PySlotVal.none : PySlotVal α)) = .ok .none := by
  refine ⟨⟨⟨f.beh, none, some s⟩, ?_, rfl, rfl⟩, rfl⟩
  rw [hcap]
  simp [source_to_fn, hex, hfc]

/-- C10: constructing an envelope attaches recovered source text to the
caller-supplied slot function objects themselves.  The envelope stores exactly
the attached objects (Python's `self.x_function = x_function` aliases the
caller's object, so the attachment is visible on the caller's function after
construction), and for any function object with extractable source the
attachment sets its `source` attribute to that source text. -/
theorem init_attaches_source_to_arguments
    (mid : String) (vi : PySlotVal RModel) (va : PySlotVal ApplyT)
    (vf : PySlotVal W2MT) (vg : PySlotVal M2WT) (vc vd : PySlotVal Unit)
    (vw : PySlotVal WCopyT) (vl : PySlotVal ILT) (w : Option Weights)
    (ts : Option String) (e : DynamicDLModel)
    (hmk : DynamicDLModel.make mid vi va vf vg vc vd vw vl w ts = .ok e) :
    (e.init_model_function = attachSource vi ∧
     e.apply_model_function = attachSource va ∧
     e.weights_to_model_function = attachSource vf ∧
     e.model_to_weights_function = attachSource vg ∧
     e.calc_delta_function = attachSource vc ∧
     e.apply_delta_function = attachSource vd ∧
     e.weight_copy_function = attachSource vw ∧
     e.incremental_learn_function = attachSource vl) ∧
    (∀ (β : Type) (g0 : FnObj β) (s : String), g0.insp = some s →
      attachSource (.fn g0) = .fn ⟨g0.beh, some s, some s⟩) := by
  constructor
  · rcases hAi : attachSource vi with _ | i2
    · rw [DynamicDLModel.make, hAi] at hmk
      simp [pycall, Bind.bind, Except.bind] at hmk
    · rw [DynamicDLModel.make, hAi] at hmk
      simp only [pycall, Bind.bind, Except.bind] at hmk
      split at hmk
      · split at hmk
        · simp only [Pure.pure, Except.pure] at hmk
          cases hmk
          simp [hAi]
        · rcases hAf : attachSource vf with _ | f2
          · rw [hAf] at hmk
            simp [DynamicDLModel.set_weights, pycall, Bind.bind, Except.bind] at hmk
          · rw [hAf] at hmk
            simp only [DynamicDLModel.set_weights, pycall, Bind.bind, Except.bind,
              Pure.pure, Except.pure] at hmk
            cases hmk
            simp [hAi, hAf]
      · simp only [Pure.pure, Except.pure] at hmk
        cases hmk
        simp [hAi]
  · intro β g0 s hins
    rw [attachSource_eq_fn]
    simp [attachedSrc, hins]



/-- C5 (amended): for every envelope whose weights are retrievable, `dump`
encodes the fixed-key mapping `model_id`, `timestamp_id`, `weights`, and one
entry per behavior slot — construct (init), apply, weights_to_model,
model_to_weights, calc_delta, apply_delta and incremental_learn — each slot
entry holding its captured source text or the opaque fallback payload
(`fn_to_source` of the slot); the weight-copy slot has NO entry. -/
theorem dump_fixed_keys (e : DynamicDLModel) (g : FnObj M2WT)
    (hg : e.model_to_weights_function = .fn g) :
    ∃ d, e.dump = .ok d ∧
      d.map Prod.fst =
        ["model_id", "init_model_function", "apply_model_function",
         "weights_to_model_function", "model_to_weights_function",
         "calc_delta_function", "apply_delta_function",
         "incremental_learn_function", "weights", "timestamp_id"] ∧
      lookupKey d "model_id" = some (.mid e.model_id) ∧
      lookupKey d "init_model_function" =
        some (.slotInit (fn_to_source e.init_model_function)) ∧
      lookupKey d "apply_model_function" =
        some (.slotApply (fn_to_source e.apply_model_function)) ∧
      lookupKey d "weights_to_model_function" =
        some (.slotW2M (fn_to_source e.weights_to_model_function)) ∧
      lookupKey d "model_to_weights_function" =
        some (.slotM2W (fn_to_source e.model_to_weights_function)) ∧
      lookupKey d "calc_delta_function" =
        some (.slotCalc (fn_to_source e.calc_delta_function)) ∧
      lookupKey d "apply_delta_function" =
        some (.slotApplyD (fn_to_source e.apply_delta_function)) ∧
      lookupKey d "incremental_learn_function" =
        some (.slotIncr (fn_to_source e.incremental_learn_function)) ∧
      lookupKey d "weights" = some (.ws (g.beh e.model)) ∧
      lookupKey d "timestamp_id" = some (.tsid e.timestamp_id) ∧
      lookupKey d "weight_copy_function" = none := by
  have hdump : e.dump = .ok
      [("model_id", DumpValue.mid e.model_id),
       ("init_model_function", DumpValue.slotInit (fn_to_source e.init_model_function)),
       ("apply_model_function", DumpValue.slotApply (fn_to_source e.apply_model_function)),
       ("weights_to_model_function",
         DumpValue.slotW2M (fn_to_source e.weights_to_model_function)),
       ("model_to_weights_function",
         DumpValue.slotM2W (fn_to_source e.model_to_weights_function)),
       ("calc_delta_function", DumpValue.slotCalc (fn_to_source e.calc_delta_function)),
       ("apply_delta_function", DumpValue.slotApplyD (fn_to_source e.apply_delta_function)),
       ("incremental_learn_function",
         DumpValue.slotIncr (fn_to_source e.incremental_learn_function)),
       ("weights", DumpValue.ws (g.beh e.model)),
       ("timestamp_id", DumpValue.tsid e.timestamp_id)] := by
    rw [DynamicDLModel.dump, get_weights_eq e g hg]
    rfl
  exact ⟨_, hdump, rfl, rfl, rfl, rfl, rfl, rfl, rfl, rfl, rfl, rfl, rfl, rfl⟩

/-- C5 counterexample: at a concrete envelope the dumped mapping has no entry
for the weight-copy slot, refuting the claim that `dump` carries one entry per
behavior slot including `weight_copy`. -/
theorem dump_weight_copy_missing_cex :
    ∃ d, envA.dump = .ok d ∧ "weight_copy_function" ∉ d.map Prod.fst := by
  have hdump : envA.dump = .ok
      [("model_id", DumpValue.mid "clf-v1"),
       ("init_model_function", DumpValue.slotInit (.src initSrcW)),
       ("apply_model_function", DumpValue.slotApply (.src applySrcW)),
       ("weights_to_model_function", DumpValue.slotW2M (.src default_w2m_src)),
       ("model_to_weights_function", DumpValue.slotM2W (.src default_m2w_src)),
       ("calc_delta_function", DumpValue.slotCalc (.src default_calc_src)),
       ("apply_delta_function", DumpValue.slotApplyD (.src default_applyd_src)),
       ("incremental_learn_function", DumpValue.slotIncr .none),
       ("weights", DumpValue.ws [[1, 2], [3]]),
       ("timestamp_id", DumpValue.tsid none)] := rfl
  exact ⟨_, hdump, by decide⟩

/-- C7 (amended): resolving a textual CodeUnit raises only when executing the
source raises (and the exception propagates, so a load fails); when execution
succeeds but defines no callable, resolution returns `None` without raising. -/
theorem source_resolution_outcomes {α : Type} (E : ExecEnv α) (s : String) :
    (E s = none → source_to_fn E (.src s) = .error .execError) ∧
    (∀ l, E s = some l → firstCallable l = none → source_to_fn E (.src s) = .ok .none) := by
  constructor
  · intro h
    simp [source_to_fn, h]
  · intro l hl hf
    simp [source_to_fn, hl, hf]

/-- C7 counterexample: a textual CodeUnit whose execution defines no callable
resolves to `None` (no failure), and `Load` nonetheless creates the envelope,
with the failed slots absent. -/
theorem load_with_uncallable_source_cex :
    source_to_fn execsCex.calcE (DumpedSlot.src srcNoCallable) = .ok .none ∧
    ∃ e2, DynamicDLModel.Load execsCex dictCex = .ok e2 ∧
      e2.calc_delta_function = PySlotVal.none := by
  have hload : DynamicDLModel.Load execsCex dictCex = .ok
      { model := [[7]], model_id := "m1", timestamp_id := none,
        init_model_function := .fn ⟨[[7]], none, some initSrcW⟩,
        apply_model_function := .none,
        weights_to_model_function := .none,
        model_to_weights_function := .none,
        calc_delta_function := .none,
        apply_delta_function := .none,
        weight_copy_function :=
          .fn ⟨default_keras_weight_copy_function, some default_wcopy_src,
            some default_wcopy_src⟩,
        incremental_learn_function := .none } := rfl
  exact ⟨rfl, _, hload, rfl⟩

/-! ### Witnesses -/

/-- Witness for the round-trip theorem at `envA` with the capturing exec
environments. -/
theorem load_dump_roundtrip_witness :
    (envA.init_model_function = .fn initObjW) ∧
    (envA.apply_model_function = .fn applyObjW) ∧
    (envA.weights_to_model_function = .fn default_w2m_obj) ∧
    (envA.model_to_weights_function = .fn default_m2w_obj) ∧
    slotRT execsW.initE envA.init_model_function ∧
    slotRT execsW.applyE envA.apply_model_function ∧
    slotRT execsW.w2mE envA.weights_to_model_function ∧
    slotRT execsW.m2wE envA.model_to_weights_function ∧
    slotRT execsW.calcE envA.calc_delta_function ∧
    slotRT execsW.applyDE envA.apply_delta_function ∧
    slotRT execsW.incrE envA.incremental_learn_function ∧
    ((if default_m2w_obj.beh envA.model = [] then initObjW.beh
      else default_w2m_obj.beh initObjW.beh (default_m2w_obj.beh envA.model)) = envA.model) ∧
    ∃ d e2, envA.dump = .ok d ∧ DynamicDLModel.Load execsW d = .ok e2 ∧
      e2.get_weights = envA.get_weights ∧ ∀ x, e2.apply x = envA.apply x :=
  ⟨rfl, rfl, rfl, rfl, rfl, rfl, rfl, rfl, rfl, rfl, rfl, rfl,
    load_dump_roundtrip execsW envA initObjW applyObjW default_w2m_obj default_m2w_obj
      rfl rfl rfl rfl rfl rfl rfl rfl rfl rfl rfl rfl⟩

/-- Witness for the exact-inverse theorem at the spec's scenario envelopes. -/
theorem apply_delta_calc_delta_inverse_witness :
    (envA.model_id = envB.model_id) ∧
    (∀ m w, default_m2w_obj.beh (default_w2m_obj.beh m w) = w) ∧
    shapesMatch (default_m2w_obj.beh envA.model) (default_m2w_obj.beh envB.model) ∧
    ∃ D R, default_keras_delta_function envA envB none = .ok D ∧
      default_keras_apply_delta_function D envB = .ok R ∧
      R.get_weights = envA.get_weights :=
  ⟨rfl, fun _ _ => rfl, by constructor <;> decide,
    apply_delta_calc_delta_inverse envA envB initObjW default_w2m_obj default_m2w_obj
      default_m2w_obj rfl rfl rfl rfl (fun _ _ => rfl) rfl (by constructor <;> decide)⟩

/-- Witness for the identity-guard theorem at envelopes with differing ids. -/
theorem delta_identity_guard_witness :
    (envA.model_id ≠ envC.model_id) ∧
    default_keras_delta_function envA envC (some 1) = .error .incompatibleModel ∧
    default_keras_apply_delta_function envA envC = .error .incompatibleModel :=
  ⟨by decide, delta_identity_guard envA envC (some 1) (by decide)⟩

/-- Witness for the delta-computation theorem, at the spec's scenario:
without threshold the delta weights are `[[0.5, 0.0], [0.0]]`, and with
threshold `0.6` they are `[[0.0, 0.0], [0.0]]`. -/
theorem calc_delta_weights_witness :
    (envA.model_id = envB.model_id) ∧
    (∀ m w, default_m2w_obj.beh (default_w2m_obj.beh m w) = w) ∧
    ((default_m2w_obj.beh envA.model).length = (default_m2w_obj.beh envB.model).length) ∧
    specDeltaW none (default_m2w_obj.beh envA.model) (default_m2w_obj.beh envB.model) =
      [[1/2, 0], [0]] ∧
    specDeltaW (some (3/5)) (default_m2w_obj.beh envA.model) (default_m2w_obj.beh envB.model) =
      [[0, 0], [0]] ∧
    (∃ D, default_keras_delta_function envA envB none = .ok D ∧
      D.get_weights = .ok (specDeltaW none (default_m2w_obj.beh envA.model)
        (default_m2w_obj.beh envB.model))) ∧
    (∃ D, default_keras_delta_function envA envB (some (3/5)) = .ok D ∧
      D.get_weights = .ok (specDeltaW (some (3/5)) (default_m2w_obj.beh envA.model)
        (default_m2w_obj.beh envB.model))) :=
  ⟨rfl, fun _ _ => rfl, rfl,
    by norm_num [specDeltaW, applyThresh, threshZero, tensorSub, envA, envB,
      default_m2w_obj, default_keras_model_to_weights_function],
    by norm_num [specDeltaW, applyThresh, threshZero, tensorSub, envA, envB,
      default_m2w_obj, default_keras_model_to_weights_function, abs_of_nonneg],
    calc_delta_weights envA envB none initObjW default_w2m_obj default_m2w_obj
      default_m2w_obj rfl rfl rfl rfl (fun _ _ => rfl) rfl rfl,
    calc_delta_weights envA envB (some (3/5)) initObjW default_w2m_obj default_m2w_obj
      default_m2w_obj rfl rfl rfl rfl (fun _ _ => rfl) rfl rfl⟩

/-- Witness for the amended dump-keys theorem at `envA`. -/
theorem dump_fixed_keys_witness :
    (envA.model_to_weights_function = .fn default_m2w_obj) ∧
    ∃ d, envA.dump = .ok d ∧
      d.map Prod.fst =
        ["model_id", "init_model_function", "apply_model_function",
         "weights_to_model_function", "model_to_weights_function",
         "calc_delta_function", "apply_delta_function",
         "incremental_learn_function", "weights", "timestamp_id"] ∧
      lookupKey d "model_id" = some (.mid envA.model_id) ∧
      lookupKey d "init_model_function" =
        some (.slotInit (fn_to_source envA.init_model_function)) ∧
      lookupKey d "apply_model_function" =
        some (.slotApply (fn_to_source envA.apply_model_function)) ∧
      lookupKey d "weights_to_model_function" =
        some (.slotW2M (fn_to_source envA.weights_to_model_function)) ∧
      lookupKey d "model_to_weights_function" =
        some (.slotM2W (fn_to_source envA.model_to_weights_function)) ∧
      lookupKey d "calc_delta_function" =
        some (.slotCalc (fn_to_source envA.calc_delta_function)) ∧
      lookupKey d "apply_delta_function" =
        some (.slotApplyD (fn_to_source envA.apply_delta_function)) ∧
      lookupKey d "incremental_learn_function" =
        some (.slotIncr (fn_to_source envA.incremental_learn_function)) ∧
      lookupKey d "weights" = some (.ws (default_m2w_obj.beh envA.model)) ∧
      lookupKey d "timestamp_id" = some (.tsid envA.timestamp_id) ∧
      lookupKey d "weight_copy_function" = none :=
  ⟨rfl, dump_fixed_keys envA default_m2w_obj rfl⟩

/-- Witness for the absent incremental-learn slot theorem at `envA`. -/
theorem incremental_learn_absent_fails_witness :
    (envA.incremental_learn_function = .none) ∧
    envA.incremental_learn [[1]] [[2]] 5 5 = .error .typeError :=
  ⟨rfl, incremental_learn_absent_fails envA [[1]] [[2]] 5 5 rfl⟩

/-- Witness for the source-resolution outcome theorem with the concrete exec
environments: the init environment raises on unknown source, and the
calc environment defines only a non-callable. -/
theorem source_resolution_outcomes_witness :
    (execsCex.initE srcNoCallable = none ∧
      source_to_fn execsCex.initE (.src srcNoCallable) = .error .execError) ∧
    (execsCex.calcE srcNoCallable = some [.notCallable] ∧
      firstCallable [(ExecBinding.notCallable : ExecBinding Unit)] = none ∧
      source_to_fn execsCex.calcE (.src srcNoCallable) = .ok .none) :=
  ⟨⟨rfl, (source_resolution_outcomes execsCex.initE srcNoCallable).1 rfl⟩,
   ⟨rfl, rfl, (source_resolution_outcomes execsCex.calcE srcNoCallable).2 _ rfl rfl⟩⟩

/-- Witness for the capture/resolve round-trip theorem at the concrete init
function object. -/
theorem capture_resolve_roundtrip_witness :
    (fn_to_source (.fn initObjW) = .src initSrcW) ∧
    (execsW.initE initSrcW = some [.callable initObjW.beh]) ∧
    (firstCallable [ExecBinding.callable initObjW.beh] = some initObjW.beh) ∧
    ((∃ g : FnObj RModel,
        source_to_fn execsW.initE (fn_to_source (.fn initObjW)) = .ok (.fn g) ∧
        g.beh = initObjW.beh ∧ fn_to_source (.fn g) = .src initSrcW) ∧
      source_to_fn execsW.initE (fn_to_source (PySlotVal.none : PySlotVal RModel)) =
        .ok .none) :=
  ⟨rfl, rfl, rfl,
    capture_resolve_roundtrip execsW.initE initObjW initSrcW _ rfl rfl rfl⟩

/-- Witness for the store-level copy-isolation theorem at a concrete store. -/
theorem weight_copy_isolation_witness :
    (∀ r ∈ [0, 1], r < ([[1, 2], [3]] : Store).length) ∧
    ((∀ r2 ∈ (weightCopyStore [[1, 2], [3]] [0, 1]).2,
        ([[1, 2], [3]] : Store).length ≤ r2) ∧
     (∀ p ∈ List.zip [0, 1] (weightCopyStore [[1, 2], [3]] [0, 1]).2,
        readTensor (weightCopyStore [[1, 2], [3]] [0, 1]).1 p.2 =
          readTensor [[1, 2], [3]] p.1) ∧
     (∀ r2 ∈ (weightCopyStore [[1, 2], [3]] [0, 1]).2, ∀ v : Tensor, ∀ r ∈ [0, 1],
        readTensor (writeTensor (weightCopyStore [[1, 2], [3]] [0, 1]).1 r2 v) r =
          readTensor [[1, 2], [3]] r)) :=
  ⟨by decide, weight_copy_isolation [[1, 2], [3]] [0, 1] (by decide)⟩

/-- Witness for the source-attachment theorem at a concrete construction. -/
theorem init_attaches_source_witness :
    ∃ e, DynamicDLModel.make "clf-v1" (.fn initObjW) (.fn applyObjW)
        (.fn default_w2m_obj) (.fn default_m2w_obj) (.fn default_calc_obj)
        (.fn default_applyd_obj) (.fn default_wcopy_obj) .none
        (some [[1, 2], [3]]) none = .ok e ∧
      ((e.init_model_function = attachSource (.fn initObjW) ∧
        e.apply_model_function = attachSource (.fn applyObjW) ∧
        e.weights_to_model_function = attachSource (.fn default_w2m_obj) ∧
        e.model_to_weights_function = attachSource (.fn default_m2w_obj) ∧
        e.calc_delta_function = attachSource (.fn default_calc_obj) ∧
        e.apply_delta_function = attachSource (.fn default_applyd_obj) ∧
        e.weight_copy_function = attachSource (.fn default_wcopy_obj) ∧
        e.incremental_learn_function = attachSource .none) ∧
       (∀ (β : Type) (g0 : FnObj β) (s : String), g0.insp = some s →
         attachSource (.fn g0) = .fn ⟨g0.beh, some s, some s⟩)) :=
  ⟨_, rfl, init_attaches_source_to_arguments "clf-v1" (.fn initObjW) (.fn applyObjW)
    (.fn default_w2m_obj) (.fn default_m2w_obj) (.fn default_calc_obj)
    (.fn default_applyd_obj) (.fn default_wcopy_obj) .none
    (some [[1, 2], [3]]) none _ rfl⟩

/-! ### Counterexamples -/

/-- C1 counterexample: an envelope all of whose slots have capturable,
self-contained source, yet whose (contract-violating) weights-to-model slot
makes `Load(dump(E)).get_weights()` differ from `E.get_weights()` — the
loaded copy holds four tensors where the source held two. -/
theorem load_dump_roundtrip_cex :
    slotRT execsD.initE envDouble.init_model_function ∧
    slotRT execsD.applyE envDouble.apply_model_function ∧
    slotRT execsD.w2mE envDouble.weights_to_model_function ∧
    slotRT execsD.m2wE envDouble.model_to_weights_function ∧
    slotRT execsD.calcE envDouble.calc_delta_function ∧
    slotRT execsD.applyDE envDouble.apply_delta_function ∧
    slotRT execsD.incrE envDouble.incremental_learn_function ∧
    ∃ d e2 w1 w2, envDouble.dump = .ok d ∧ DynamicDLModel.Load execsD d = .ok e2 ∧
      envDouble.get_weights = .ok w1 ∧ e2.get_weights = .ok w2 ∧
      w1.length = 2 ∧ w2.length = 4 ∧ w2 ≠ w1 := by
  refine ⟨rfl, rfl, rfl, rfl, rfl, rfl, rfl, _, _, _, _, rfl, rfl, rfl, rfl, rfl, rfl, ?_⟩
  intro h
  exact absurd (congrArg List.length h) (by decide)

/-- C2 counterexample: two envelopes with equal `model_id` and equal-length,
equal-shape weight sequences for which
`apply_delta(calc_delta(A, B, None), B)` does not reproduce `A`: with a
contract-violating accessor slot on `A`, the composite raises `IndexError`
instead of yielding `A`'s weights. -/
theorem apply_delta_calc_delta_inverse_cex :
    (envDouble.model_id = envY.model_id) ∧
    envDouble.get_weights = .ok [[1], [1]] ∧
    envY.get_weights = .ok [[1], [1]] ∧
    ∃ D, default_keras_delta_function envDouble envY none = .ok D ∧
      default_keras_apply_delta_function D envY = .error .indexError :=
  ⟨rfl, rfl, rfl, _, rfl, rfl⟩
